import Mathlib

/-!
Shallow embedding of the Activity-Tracker application core:
the data model (src/app/models.py) and the activity lifecycle /
aggregation routes (src/app/routes/activities.py, src/app/routes/analytics.py).

Conventions of the embedding:
* dates are day numbers (`Int`), datetimes are seconds since the epoch, UTC
  (`Int`); `d.date()` of a UTC datetime is `Int.fdiv · 86400`;
* Python `str.strip()` is `pyStrip`, SQLite `LIKE '%p%'` is the
  case-insensitive substring test `likeContains`;
* a route handler is a function from the submitted form plus the relevant
  database rows to `Except err newRows`; a `Except.error` result models the
  handler path that flashes/returns an error without committing, so the
  stored state is unchanged (Flask-SQLAlchemy discards the uncommitted
  session at request teardown);
* `add_activity` commits twice, so it is modelled by the list of
  successively committed states (`addActivityCommits`).
-/

/-- Python `str.strip` on a character list. -/
def trimChars (l : List Char) : List Char :=
  ((l.dropWhile Char.isWhitespace).reverse.dropWhile Char.isWhitespace).reverse

/-- Python `str.strip`. -/
def pyStrip (s : String) : String := String.mk (trimChars s.data)

/-- ASCII lower-casing of one character (SQLite `LIKE` case folding). -/
def charLower (c : Char) : Char :=
  if 65 ≤ c.toNat ∧ c.toNat ≤ 90 then Char.ofNat (c.toNat + 32) else c

/-- ASCII lower-casing of a character list. -/
def lowerChars (l : List Char) : List Char := l.map charLower

/-- Is `needle` a contiguous sublist of `hay`? -/
def containsSub (needle : List Char) : List Char → Bool
  | [] => needle.isEmpty
  | c :: t => needle.isPrefixOf (c :: t) || containsSub needle t

/-- SQLite `field LIKE '%s%'`: case-insensitive substring containment
(activities.py lines 24-30). -/
def likeContains (s field : String) : Bool :=
  containsSub (lowerChars s.data) (lowerChars field.data)

instance {ε α : Type} [DecidableEq ε] [DecidableEq α] : DecidableEq (Except ε α)
  | .error e, .error f =>
      if h : e = f then .isTrue (by rw [h]) else .isFalse (by simp [h])
  | .error _, .ok _ => .isFalse (by simp)
  | .ok _, .error _ => .isFalse (by simp)
  | .ok a, .ok b =>
      if h : a = b then .isTrue (by rw [h]) else .isFalse (by simp [h])

/-- Allowed status values (models.py, `Activity.validate_status`). -/
def allowedStatuses : List String := ["Ongoing", "Closed", "NA"]

/-- Allowed priority values (models.py, `Activity.validate_priority`). -/
def allowedPriorities : List String := ["High", "Medium", "Low"]

/-- A row of the `activities` table (models.py lines 19-32). -/
structure Activity where
  id : Nat
  activity_desc : String
  source : String
  start_date : Int
  end_date : Option Int
  blocking_points : Option String
  status : String
  observations : Option String
  priority : String
  tags : String
deriving DecidableEq

/-- A row of the `updates` table (models.py lines 113-118). -/
structure Update where
  activity_id : Nat
  text : String
  created_at : Int
  bp_snapshot : Option String
deriving DecidableEq

/-- `status ∈ {Ongoing, Closed, NA}` and `priority ∈ {High, Medium, Low}`
(the enumerated-set invariant of models.py). -/
def validActivity (a : Activity) : Prop :=
  a.status ∈ allowedStatuses ∧ a.priority ∈ allowedPriorities

instance (a : Activity) : Decidable (validActivity a) := by
  unfold validActivity; infer_instance

/-- The enumerated-set invariant over a whole table. -/
def validDb (l : List Activity) : Prop := ∀ a ∈ l, validActivity a

/-! ### Edit (activities.py `edit_activity`, lines 319-363) -/

inductive EditErr where
  | invalidStatus
  | invalidPriority
  | closingNoteRequired
deriving DecidableEq

/-- The POST form of `/edit/<id>` (dates already parsed; absent optional
fields folded to their defaults as `request.form.get` does). -/
structure EditForm where
  activity_desc : String
  source : String
  start_date : Int
  end_date : Option Int
  blocking_points : String
  status : String
  priority : String
  tags : String
  new_update : String
  closing_note : String
deriving DecidableEq

/-- `edit_activity` POST handler. Returns the new state of the activity and
the list of Updates appended by this request; an error models the
exception/validation paths, which roll back without persisting anything. -/
def editActivity (a : Activity) (f : EditForm) (now : Int) :
    Except EditErr (Activity × List Update) :=
  let old_status := a.status
  if f.status ∈ allowedStatuses then
    if f.priority ∈ allowedPriorities then
      let a1 : Activity :=
        { a with
          activity_desc := f.activity_desc
          source := f.source
          start_date := f.start_date
          end_date := f.end_date
          blocking_points := some f.blocking_points
          status := f.status
          priority := f.priority
          tags := f.tags }
      let nu := pyStrip f.new_update
      let a2 := if nu ≠ "" then { a1 with observations := some nu } else a1
      let ups1 : List Update :=
        if nu ≠ "" then
          [{ activity_id := a.id, text := nu, created_at := now, bp_snapshot := none }]
        else []
      let cn := pyStrip f.closing_note
      if a2.status = "Closed" ∧ old_status ≠ "Closed" then
        if cn ≠ "" then
          let t := "[CLOSED] " ++ cn
          Except.ok ({ a2 with observations := some t },
            ups1 ++ [{ activity_id := a.id, text := t, created_at := now, bp_snapshot := none }])
        else if nu = "" then Except.error EditErr.closingNoteRequired
        else Except.ok (a2, ups1)
      else Except.ok (a2, ups1)
    else Except.error EditErr.invalidPriority
  else Except.error EditErr.invalidStatus

/-! ### Inline status change (activities.py `update_status`, lines 506-552) -/

inductive StatusErr where
  | invalidStatus
  | closingNoteRequired
deriving DecidableEq

/-- `/activity/<id>/status` POST handler (both JSON 400 error paths). -/
def updateStatus (a : Activity) (statusField closingField : String)
    (today now : Int) : Except StatusErr (Activity × List Update) :=
  let old_status := a.status
  let ns := pyStrip statusField
  let cn := pyStrip closingField
  if ns ∈ allowedStatuses then
    if ns = "Closed" ∧ old_status ≠ "Closed" ∧ cn = "" then
      Except.error StatusErr.closingNoteRequired
    else
      let a1 := { a with status := ns }
      let a2 :=
        if ns = "Closed" ∧ a1.end_date = none then { a1 with end_date := some today }
        else a1
      if cn ≠ "" ∧ ns = "Closed" then
        let t := "[CLOSED] " ++ cn
        Except.ok ({ a2 with observations := some t },
          [{ activity_id := a.id, text := t, created_at := now, bp_snapshot := none }])
      else Except.ok (a2, [])
  else Except.error StatusErr.invalidStatus

/-! ### Append update (activities.py `add_update`, lines 467-503) -/

/-- `/activity/<id>/update` POST handler: either the "Update cannot be
empty." flash with no write, or the new activity state plus the one
persisted Update. -/
def addUpdate (a : Activity) (updateText bpField : String) (now : Int) :
    Except String (Activity × Update) :=
  let text := pyStrip updateText
  let new_bp := pyStrip bpField
  if text = "" then Except.error "Update cannot be empty."
  else
    let a1 := { a with observations := some text }
    let a2 := if new_bp ≠ "" then { a1 with blocking_points := some new_bp } else a1
    Except.ok (a2,
      { activity_id := a.id, text := text, created_at := now,
        bp_snapshot := some (a2.blocking_points.getD "") })

/-! ### Bulk priority update (activities.py `bulk_update_priority`, lines 555-584) -/

inductive BulkErr where
  | emptyIds
  | invalidPriority
deriving DecidableEq

/-- `/activities/bulk/priority` POST handler: returns the new table and
`updated_count`, or the 400 error responses. -/
def bulkUpdatePriority (db : List Activity) (ids : List Nat)
    (priorityField : String) : Except BulkErr (List Activity × Nat) :=
  let np := pyStrip priorityField
  if ids.isEmpty then Except.error BulkErr.emptyIds
  else if np ∈ allowedPriorities then
    Except.ok
      (db.map (fun a => if ids.contains a.id then { a with priority := np } else a),
       (db.filter (fun a => ids.contains a.id)).length)
  else Except.error BulkErr.invalidPriority

/-! ### Create (activities.py `add_activity`, lines 260-306) -/

/-- The POST form of `/add`. -/
structure CreateForm where
  activity_desc : String
  source : String
  start_date : Int
  end_date : Option Int
  blocking_points : String
  status : String
  observations : String
  initial_update : String
  priority : String
  tags : String
deriving DecidableEq

/-- The initial note: `observations` if non-blank, else `initial_update`
(activities.py line 275). -/
def initialObs (f : CreateForm) : String :=
  if pyStrip f.observations ≠ "" then pyStrip f.observations else pyStrip f.initial_update

/-- The Activity row built by `add_activity` (lines 276-286). -/
def createdActivity (f : CreateForm) (newId : Nat) : Activity :=
  { id := newId
    activity_desc := pyStrip f.activity_desc
    source := f.source
    start_date := f.start_date
    end_date := f.end_date
    blocking_points := some f.blocking_points
    status := f.status
    observations := some (initialObs f)
    priority := f.priority
    tags := f.tags }

/-- Which of the three terminal outcomes the `add_activity` POST reaches:
the description-validation flash (line 265), the generic exception flash
(line 305, reached e.g. when a model validator raises), or success. -/
inductive CreateOutcome where
  | descValidationError
  | exceptionError
  | success
deriving DecidableEq

/-- Terminal outcome of one `add_activity` POST. -/
def addActivityOutcome (f : CreateForm) : CreateOutcome :=
  let desc := pyStrip f.activity_desc
  if desc = "" ∨ desc.length < 3 then CreateOutcome.descValidationError
  else if f.status ∈ allowedStatuses ∧ f.priority ∈ allowedPriorities then
    CreateOutcome.success
  else CreateOutcome.exceptionError

/-- `add_activity` POST handler, modelled as the sequence of successively
COMMITTED `(activities, updates)` states: the handler calls
`db.session.commit()` once after inserting the Activity (line 288) and,
when an initial note was given, a second time after inserting the initial
Update (line 299). An empty list models the validation-failure /
exception paths, which commit nothing. -/
def addActivityCommits (dbA : List Activity) (dbU : List Update)
    (f : CreateForm) (newId : Nat) (now : Int) :
    List (List Activity × List Update) :=
  let desc := pyStrip f.activity_desc
  if desc = "" ∨ desc.length < 3 then []
  else if f.status ∈ allowedStatuses ∧ f.priority ∈ allowedPriorities then
    let activity := createdActivity f newId
    let s1 := (dbA ++ [activity], dbU)
    if initialObs f ≠ "" then
      let u : Update :=
        { activity_id := newId, text := initialObs f, created_at := now,
          bp_snapshot := some (activity.blocking_points.getD "") }
      [s1, (dbA ++ [activity], dbU ++ [u])]
    else [s1]
  else []

/-! ### Dashboard aggregation (activities.py `dashboard`, lines 13-161) -/

/-- The dashboard request filters (activities.py lines 22-42). -/
structure DashQuery where
  search : String
  priority : String
  status : String
  has_blockers : Bool
  dir_desc : Bool
deriving DecidableEq

/-- The dashboard WHERE clause: `status != 'Closed'` plus the request
filters (activities.py lines 20-42). -/
def passesDashFilters (q : DashQuery) (a : Activity) : Bool :=
  (a.status ≠ "Closed")
  && (pyStrip q.search = ""
        || likeContains (pyStrip q.search) a.activity_desc
        || likeContains (pyStrip q.search) a.source
        || (match a.blocking_points with
            | some bp => likeContains (pyStrip q.search) bp
            | none => false))
  && (pyStrip q.priority = "" || a.priority = pyStrip q.priority)
  && (pyStrip q.status = "" || a.status = pyStrip q.status)
  && (!q.has_blockers || (a.blocking_points ≠ none ∧ a.blocking_points ≠ some ""))

/-- The fixed priority rank `{'High': 1, 'Medium': 2, 'Low': 3}` with
`.get(priority, 4)` for anything else (activities.py lines 17, 55). -/
def priorityRank (a : Activity) : Int :=
  if a.priority = "High" then 1
  else if a.priority = "Medium" then 2
  else if a.priority = "Low" then 3
  else 4

/-- Ascending comparison by an integer key. -/
def keyAsc {α : Type} (key : α → Int) (a b : α) : Prop := key a ≤ key b

/-- Descending comparison by an integer key (Python `reverse=True`). -/
def keyDesc {α : Type} (key : α → Int) (a b : α) : Prop := key b ≤ key a

instance {α : Type} (key : α → Int) : DecidableRel (keyAsc key) :=
  fun a b => Int.decLe (key a) (key b)

instance {α : Type} (key : α → Int) : DecidableRel (keyDesc key) :=
  fun a b => Int.decLe (key b) (key a)

instance {α : Type} (key : α → Int) : IsTotal α (keyAsc key) :=
  ⟨fun a b => Int.le_total (key a) (key b)⟩

instance {α : Type} (key : α → Int) : IsTotal α (keyDesc key) :=
  ⟨fun a b => Int.le_total (key b) (key a)⟩

instance {α : Type} (key : α → Int) : IsTrans α (keyAsc key) :=
  ⟨fun _ _ _ h h2 => le_trans h h2⟩

instance {α : Type} (key : α → Int) : IsTrans α (keyDesc key) :=
  ⟨fun _ _ _ h h2 => le_trans h2 h⟩

/-- Python `list.sort(key=..., reverse=...)` is a stable sort by the key;
modelled by stable insertion sort. -/
def sortByKey {α : Type} (key : α → Int) (descending : Bool) (l : List α) :
    List α :=
  if descending then l.insertionSort (keyDesc key) else l.insertionSort (keyAsc key)

/-- The dashboard activity list with the default `sort=priority`
(activities.py lines 20-55). -/
def dashboardActivities (db : List Activity) (q : DashQuery) : List Activity :=
  sortByKey priorityRank q.dir_desc (db.filter (passesDashFilters q))

/-- UTC calendar day of an update: `created_at.date()` (line 87). -/
def updateDay (u : Update) : Int := Int.fdiv u.created_at 86400

/-- `dates_with_updates`: the set of distinct UTC days with at least one
Update (activities.py lines 85-88). -/
def updateDates (ups : List Update) : Finset Int := (ups.map updateDay).toFinset

/-- The `while check_date in dates_with_updates` loop (lines 90-93), with
fuel; every successful iteration consumes one member of the set, so
`dates.card` fuel is enough. -/
def streakAux : Finset Int → Int → Nat → Nat
  | _, _, 0 => 0
  | dates, d, fuel + 1 =>
      if d ∈ dates then streakAux (dates.erase d) (d - 1) fuel + 1 else 0

/-- `streak_days` of the dashboard (activities.py lines 81-93). -/
def streakDays (ups : List Update) (today : Int) : Nat :=
  streakAux (updateDates ups) today (updateDates ups).card

/-- The latest Update of an activity (max `created_at`); dashboard gets it
via a grouped max subquery (lines 111-132), analytics via
`order_by(created_at.desc()).first()` (line 140). -/
def latestUpdateFor (ups : List Update) (aid : Nat) : Option Update :=
  (ups.filter (fun u => u.activity_id == aid)).foldl
    (fun acc u =>
      match acc with
      | none => some u
      | some v => if v.created_at < u.created_at then some u else acc) none

/-- `days_since`: from the latest Update if any, else from `start_date`
(activities.py lines 136-142; analytics.py lines 139-144). -/
def daysSinceUpdate (ups : List Update) (now today : Int) (a : Activity) : Int :=
  match latestUpdateFor ups a.id with
  | some u => Int.fdiv (now - u.created_at) 86400
  | none => today - a.start_date

/-- `days_running = (today - start_date).days` (line 149; analytics line 134). -/
def daysRunning (today : Int) (a : Activity) : Int := today - a.start_date

/-- The Ongoing activities (line 107; analytics line 132). -/
def ongoingOf (db : List Activity) : List Activity :=
  db.filter (fun a => a.status == "Ongoing")

/-- Ongoing activities flagged stale: `days_since >= 14`
(activities.py lines 144-146; analytics.py lines 146-148). -/
def staleFlagged (db : List Activity) (ups : List Update) (now today : Int) :
    List Activity :=
  (ongoingOf db).filter (fun a => 14 ≤ daysSinceUpdate ups now today a)

/-- Ongoing activities flagged long-running: `days_running >= 30`
(activities.py lines 149-152; analytics.py lines 133-134). -/
def longFlagged (db : List Activity) (today : Int) : List Activity :=
  (ongoingOf db).filter (fun a => 30 ≤ daysRunning today a)

/-- Dashboard `smart_suggestions.stale_activities`:
`sorted(..., reverse=True)[:5]` (line 155). -/
def dashboardStale (db : List Activity) (ups : List Update) (now today : Int) :
    List Activity :=
  (sortByKey (daysSinceUpdate ups now today) true (staleFlagged db ups now today)).take 5

/-- Dashboard `smart_suggestions.long_running` (line 156). -/
def dashboardLongRunning (db : List Activity) (today : Int) : List Activity :=
  (sortByKey (daysRunning today) true (longFlagged db today)).take 5

/-- Analytics `long_running` (analytics.py line 135): sorted descending,
truncated to 5. -/
def analyticsLongRunning (db : List Activity) (today : Int) : List Activity :=
  (sortByKey (daysRunning today) true (longFlagged db today)).take 5

/-- Analytics `stale_activities` (analytics.py line 150): sorted
descending, NOT truncated. -/
def analyticsStale (db : List Activity) (ups : List Update) (now today : Int) :
    List Activity :=
  sortByKey (daysSinceUpdate ups now today) true (staleFlagged db ups now today)

/-- Quick sanity checks of the lifecycle embedding. -/
example :
    addUpdate
      { id := 7, activity_desc := "demo", source := "", start_date := 0,
        end_date := none, blocking_points := some "old", status := "Ongoing",
        observations := none, priority := "Medium", tags := "" }
      " progress " " new bp " 5 =
    Except.ok
      ({ id := 7, activity_desc := "demo", source := "", start_date := 0,
         end_date := none, blocking_points := some "new bp", status := "Ongoing",
         observations := some "progress", priority := "Medium", tags := "" },
       { activity_id := 7, text := "progress", created_at := 5,
         bp_snapshot := some "new bp" }) := by decide

example :
    updateStatus
      { id := 7, activity_desc := "demo", source := "", start_date := 0,
        end_date := none, blocking_points := none, status := "Ongoing",
        observations := none, priority := "Medium", tags := "" }
      "Closed" "" 10 0 = Except.error StatusErr.closingNoteRequired := by decide

/-! ### Stability of the key-sorts -/

theorem filter_orderedInsert_key_eq {α : Type} (r : α → α → Prop) [DecidableRel r]
    (key : α → Int) (a : α) (hne : ∀ x, ¬ r a x → key x ≠ key a) (l : List α) :
    (l.orderedInsert r a).filter (fun x => key x == key a) =
      a :: l.filter (fun x => key x == key a) := by
  rw [List.orderedInsert_eq_take_drop, List.filter_append]
  have h1 : (l.takeWhile fun b => ¬ r a b).filter (fun x => key x == key a) = [] := by
    rw [List.filter_eq_nil_iff]
    intro x hx
    have hpx : ¬ r a x := by simpa using List.mem_takeWhile_imp hx
    simp [hne x hpx]
  have h2 : l.filter (fun x => key x == key a)
      = ((l.takeWhile fun b => ¬ r a b) ++ l.dropWhile fun b => ¬ r a b).filter
          (fun x => key x == key a) := by
    rw [List.takeWhile_append_dropWhile]
  rw [h1, List.filter_cons, h2, List.filter_append, h1]
  simp

theorem filter_orderedInsert_key_ne {α : Type} (r : α → α → Prop) [DecidableRel r]
    (key : α → Int) (a : α) (k : Int) (hk : key a ≠ k) (l : List α) :
    (l.orderedInsert r a).filter (fun x => key x == k) =
      l.filter (fun x => key x == k) := by
  rw [List.orderedInsert_eq_take_drop, List.filter_append, List.filter_cons]
  have hb : (key a == k) = false := by simpa using hk
  rw [hb]
  simp only [Bool.false_eq_true, if_false]
  rw [← List.filter_append, List.takeWhile_append_dropWhile]

theorem filter_key_insertionSort {α : Type} (r : α → α → Prop) [DecidableRel r]
    (key : α → Int) (hr : ∀ a x, ¬ r a x → key x ≠ key a) (k : Int) :
    ∀ l : List α,
      (l.insertionSort r).filter (fun x => key x == k) =
        l.filter (fun x => key x == k)
  | [] => rfl
  | a :: l => by
      rw [List.insertionSort]
      by_cases h : key a = k
      · subst h
        rw [filter_orderedInsert_key_eq r key a (hr a) _,
          filter_key_insertionSort r key hr (key a) l, List.filter_cons]
        simp
      · rw [filter_orderedInsert_key_ne r key a k h _,
          filter_key_insertionSort r key hr k l, List.filter_cons]
        have hb : (key a == k) = false := by simpa using h
        rw [hb]
        simp

theorem sortByKey_perm {α : Type} (key : α → Int) (d : Bool) (l : List α) :
    List.Perm (sortByKey key d l) l := by
  cases d <;> exact List.perm_insertionSort _ _

theorem sortByKey_filter_key {α : Type} (key : α → Int) (d : Bool) (k : Int)
    (l : List α) :
    (sortByKey key d l).filter (fun x => key x == k) =
      l.filter (fun x => key x == k) := by
  cases d
  · exact filter_key_insertionSort (keyAsc key) key
      (fun a x h he => h (le_of_eq he.symm)) k l
  · exact filter_key_insertionSort (keyDesc key) key
      (fun a x h he => h (le_of_eq he)) k l

theorem sortByKey_sorted_asc {α : Type} (key : α → Int) (l : List α) :
    (sortByKey key false l).Sorted (keyAsc key) :=
  List.sorted_insertionSort _ _

theorem sortByKey_sorted_desc {α : Type} (key : α → Int) (l : List α) :
    (sortByKey key true l).Sorted (keyDesc key) :=
  List.sorted_insertionSort _ _

/-! ### Concrete fixtures used by witnesses and counterexamples -/

/-- A plain Ongoing activity. -/
def exActivity : Activity :=
  { id := 1, activity_desc := "Test activity", source := "BUM", start_date := 0,
    end_date := none, blocking_points := some "", status := "Ongoing",
    observations := none, priority := "Medium", tags := "" }

/-! ### C1 -/

/-- C1: an Edit request that moves a non-Closed activity to Closed with a
blank closing note and a blank new update fails with the closing-note
validation error; the handler returns before `db.session.commit()`, so no
field change and no Update row is persisted (the error result of
`editActivity` carries no new state). -/
theorem edit_close_requires_note (a : Activity) (f : EditForm) (now : Int)
    (hold : a.status ≠ "Closed") (hstat : f.status = "Closed")
    (hprio : f.priority ∈ allowedPriorities)
    (hcn : pyStrip f.closing_note = "") (hnu : pyStrip f.new_update = "") :
    editActivity a f now = Except.error EditErr.closingNoteRequired := by
  simp [editActivity, hprio, hnu, hcn, hstat, hold, allowedStatuses]

/-- Witness for C1 at a concrete activity and form. -/
def c1Form : EditForm :=
  { activity_desc := "Edited desc", source := "SRC", start_date := 5,
    end_date := none, blocking_points := "bp", status := "Closed",
    priority := "High", tags := "t", new_update := " ", closing_note := "  " }

theorem edit_close_requires_note_witness :
    editActivity exActivity c1Form 3 = Except.error EditErr.closingNoteRequired :=
  edit_close_requires_note exActivity c1Form 3 (by decide) (by decide) (by decide)
    (by decide) (by decide)

/-! ### C10 -/

/-- C10: `add_activity` rejects a description whose trimmed length is under
3 characters: the handler flashes the validation error and commits
nothing, so no Activity is persisted. -/
theorem create_rejects_short_desc (dbA : List Activity) (dbU : List Update)
    (f : CreateForm) (newId : Nat) (now : Int)
    (h : (pyStrip f.activity_desc).length < 3) :
    addActivityOutcome f = CreateOutcome.descValidationError
    ∧ addActivityCommits dbA dbU f newId now = [] := by
  constructor <;> simp [addActivityOutcome, addActivityCommits, h]

/-- Witness for C10: a non-empty two-character description is rejected. -/
def c10Form : CreateForm :=
  { activity_desc := " ab ", source := "", start_date := 0, end_date := none,
    blocking_points := "", status := "Ongoing", observations := "",
    initial_update := "note", priority := "Medium", tags := "" }

theorem create_rejects_short_desc_witness :
    addActivityOutcome c10Form = CreateOutcome.descValidationError
    ∧ addActivityCommits [] [] c10Form 2 0 = [] :=
  create_rejects_short_desc [] [] c10Form 2 0 (by decide)

/-! ### C5 -/

/-- C5: `add_update` with blank text persists nothing and flashes
"Update cannot be empty."; with non-blank text it persists exactly one
Update whose `bp_snapshot` is the activity's blocking points AFTER the
optional new blocking points were applied (the code's `or ''` coalesces an
absent value to the empty string), and sets `observations` to the text. -/
theorem append_update_spec (a : Activity) (ut bp : String) (now : Int) :
    (pyStrip ut = "" → addUpdate a ut bp now = Except.error "Update cannot be empty.")
    ∧ (pyStrip ut ≠ "" →
        ∃ a2 u, addUpdate a ut bp now = Except.ok (a2, u)
          ∧ u.text = pyStrip ut
          ∧ u.activity_id = a.id
          ∧ a2.observations = some (pyStrip ut)
          ∧ a2.blocking_points =
              (if pyStrip bp ≠ "" then some (pyStrip bp) else a.blocking_points)
          ∧ u.bp_snapshot = some (a2.blocking_points.getD "")) := by
  constructor
  · intro h
    simp [addUpdate, h]
  · intro h
    by_cases hb : pyStrip bp = ""
    · refine ⟨{ a with observations := some (pyStrip ut) },
        { activity_id := a.id, text := pyStrip ut, created_at := now,
          bp_snapshot := some (a.blocking_points.getD "") }, ?_, rfl, rfl, rfl, ?_, rfl⟩
      · simp [addUpdate, h, hb]
      · simp [hb]
    · refine ⟨{ a with
                observations := some (pyStrip ut)
                blocking_points := some (pyStrip bp) },
        { activity_id := a.id, text := pyStrip ut, created_at := now,
          bp_snapshot := some (pyStrip bp) }, ?_, rfl, rfl, rfl, ?_, rfl⟩
      · simp [addUpdate, h, hb]
      · simp [hb]

/-- Witness for C5: both branches at concrete inputs. -/
theorem append_update_spec_witness :
    (addUpdate exActivity "  " "x" 9 = Except.error "Update cannot be empty.")
    ∧ ∃ a2 u, addUpdate exActivity " progress " " newbp " 9 = Except.ok (a2, u)
        ∧ u.text = pyStrip " progress "
        ∧ u.activity_id = exActivity.id
        ∧ a2.observations = some (pyStrip " progress ")
        ∧ a2.blocking_points =
            (if pyStrip " newbp " ≠ "" then some (pyStrip " newbp ")
              else exActivity.blocking_points)
        ∧ u.bp_snapshot = some (a2.blocking_points.getD "") :=
  ⟨(append_update_spec exActivity "  " "x" 9).1 (by decide),
   (append_update_spec exActivity " progress " " newbp " 9).2 (by decide)⟩

/-! ### C8 -/

/-- C8: bulk priority update: HTTP 400 with no write when the id list is
empty or the priority invalid; otherwise `updated_count` equals the number
of stored rows whose id is in the list, every matched row gets the new
priority, and unmatched ids are silently skipped (every row with an
unmatched id survives unchanged). -/
theorem bulk_priority_spec (db : List Activity) (ids : List Nat) (p : String) :
    (ids = [] → bulkUpdatePriority db ids p = Except.error BulkErr.emptyIds)
    ∧ (ids ≠ [] → pyStrip p ∉ allowedPriorities →
        bulkUpdatePriority db ids p = Except.error BulkErr.invalidPriority)
    ∧ (ids ≠ [] → pyStrip p ∈ allowedPriorities →
        ∃ db2 n, bulkUpdatePriority db ids p = Except.ok (db2, n)
          ∧ n = (db.filter (fun a => ids.contains a.id)).length
          ∧ db2.length = db.length
          ∧ (∀ a ∈ db, ids.contains a.id →
              ({ a with priority := pyStrip p } : Activity) ∈ db2)
          ∧ (∀ a ∈ db, ids.contains a.id = false → a ∈ db2)
          ∧ (∀ b ∈ db2, b.priority = pyStrip p ∨ b ∈ db)) := by
  refine ⟨?_, ?_, ?_⟩
  · intro h
    simp [bulkUpdatePriority, h]
  · intro h hp
    simp [bulkUpdatePriority, h, hp]
  · intro h hp
    have hne : ids.isEmpty = false := by
      cases ids with
      | nil => exact absurd rfl h
      | cons x t => rfl
    refine ⟨db.map (fun a => if ids.contains a.id then { a with priority := pyStrip p } else a),
      (db.filter (fun a => ids.contains a.id)).length,
      by simp [bulkUpdatePriority, hne, hp], rfl, by simp, ?_, ?_, ?_⟩
    · intro a ha hmem
      refine List.mem_map.2 ⟨a, ha, ?_⟩
      rw [if_pos hmem]
    · intro a ha hmem
      refine List.mem_map.2 ⟨a, ha, ?_⟩
      rw [hmem]
      simp
    · intro b hb
      obtain ⟨a, ha, rfl⟩ := List.mem_map.1 hb
      by_cases hmem : ids.contains a.id
      · rw [if_pos hmem]
        exact Or.inl rfl
      · rw [if_neg hmem]
        exact Or.inr ha

/-- Witness for C8: a two-row table, one matched id, one unknown id. -/
def bulkDb : List Activity :=
  [{ id := 1, activity_desc := "one", source := "", start_date := 0,
     end_date := none, blocking_points := none, status := "Ongoing",
     observations := none, priority := "Medium", tags := "" },
   { id := 2, activity_desc := "two", source := "", start_date := 0,
     end_date := none, blocking_points := none, status := "NA",
     observations := none, priority := "Low", tags := "" }]

theorem bulk_priority_spec_witness :
    ∃ db2 n, bulkUpdatePriority bulkDb [2, 99] "High" = Except.ok (db2, n)
      ∧ n = (bulkDb.filter (fun a => List.contains [2, 99] a.id)).length
      ∧ db2.length = bulkDb.length
      ∧ (∀ a ∈ bulkDb, List.contains [2, 99] a.id →
          ({ a with priority := pyStrip "High" } : Activity) ∈ db2)
      ∧ (∀ a ∈ bulkDb, List.contains [2, 99] a.id = false → a ∈ db2)
      ∧ (∀ b ∈ db2, b.priority = pyStrip "High" ∨ b ∈ bulkDb) :=
  (bulk_priority_spec bulkDb [2, 99] "High").2.2 (by decide) (by decide)

/-! ### C4 -/

theorem streakAux_spec :
    ∀ (fuel : Nat) (dates : Finset Int) (d : Int), dates.card ≤ fuel →
      (∀ i : Nat, i < streakAux dates d fuel → (d - (i : Int)) ∈ dates)
      ∧ (d - (streakAux dates d fuel : Int)) ∉ dates := by
  intro fuel
  induction fuel with
  | zero =>
      intro dates d hcard
      have hempty : dates = ∅ := Finset.card_eq_zero.mp (Nat.le_zero.mp hcard)
      subst hempty
      constructor
      · intro i hi
        simp [streakAux] at hi
      · simp [streakAux]
  | succ n ih =>
      intro dates d hcard
      by_cases hd : d ∈ dates
      · have hc : (dates.erase d).card ≤ n := by
          rw [Finset.card_erase_of_mem hd]
          omega
        obtain ⟨ih1, ih2⟩ := ih (dates.erase d) (d - 1) hc
        have hs : streakAux dates d (n + 1) = streakAux (dates.erase d) (d - 1) n + 1 := by
          simp [streakAux, hd]
        rw [hs]
        constructor
        · intro i hi
          cases i with
          | zero => simpa using hd
          | succ j =>
              have hj : j < streakAux (dates.erase d) (d - 1) n := by omega
              have hmem := Finset.mem_of_mem_erase (ih1 j hj)
              have hcast : d - ((j + 1 : Nat) : Int) = (d - 1) - (j : Int) := by
                push_cast
                ring
              rw [hcast]
              exact hmem
        · intro hmem
          have hne : d - ((streakAux (dates.erase d) (d - 1) n + 1 : Nat) : Int) ≠ d := by
            push_cast
            omega
          have hin : d - ((streakAux (dates.erase d) (d - 1) n + 1 : Nat) : Int) ∈
              dates.erase d := Finset.mem_erase.mpr ⟨hne, hmem⟩
          have heq : d - ((streakAux (dates.erase d) (d - 1) n + 1 : Nat) : Int) =
              (d - 1) - (streakAux (dates.erase d) (d - 1) n : Int) := by
            push_cast
            ring
          rw [heq] at hin
          exact ih2 hin
      · constructor
        · intro i hi
          simp [streakAux, hd] at hi
        · simp [streakAux, hd]

/-- C4: the dashboard streak counts the consecutive UTC calendar days
ending at today on which some Update exists, stopping at the first gap:
every one of the `streakDays` days going back from today is in the update
day set, and the next one back is not. In particular update days
{today, today-1, today-2} give 3 and {today, today-2} give 1. -/
theorem dashboard_streak_spec :
    (∀ (ups : List Update) (today : Int),
        (∀ i : Nat, i < streakDays ups today → (today - (i : Int)) ∈ updateDates ups)
        ∧ (today - (streakDays ups today : Int)) ∉ updateDates ups)
    ∧ streakDays
        [{ activity_id := 1, text := "a", created_at := 0, bp_snapshot := none },
         { activity_id := 1, text := "b", created_at := -86400, bp_snapshot := none },
         { activity_id := 2, text := "c", created_at := -172800, bp_snapshot := none }]
        0 = 3
    ∧ streakDays
        [{ activity_id := 1, text := "a", created_at := 0, bp_snapshot := none },
         { activity_id := 2, text := "c", created_at := -172800, bp_snapshot := none }]
        0 = 1 := by
  refine ⟨?_, ?_, ?_⟩
  · intro ups today
    exact streakAux_spec (updateDates ups).card (updateDates ups) today le_rfl
  · decide
  · decide

/-! ### C3 -/

/-- Six Ongoing activities, all 100 days old and without updates. -/
def staleSix : List Activity :=
  [{ id := 1, activity_desc := "s1", source := "", start_date := -100,
     end_date := none, blocking_points := none, status := "Ongoing",
     observations := none, priority := "Medium", tags := "" },
   { id := 2, activity_desc := "s2", source := "", start_date := -100,
     end_date := none, blocking_points := none, status := "Ongoing",
     observations := none, priority := "Medium", tags := "" },
   { id := 3, activity_desc := "s3", source := "", start_date := -100,
     end_date := none, blocking_points := none, status := "Ongoing",
     observations := none, priority := "Medium", tags := "" },
   { id := 4, activity_desc := "s4", source := "", start_date := -100,
     end_date := none, blocking_points := none, status := "Ongoing",
     observations := none, priority := "Medium", tags := "" },
   { id := 5, activity_desc := "s5", source := "", start_date := -100,
     end_date := none, blocking_points := none, status := "Ongoing",
     observations := none, priority := "Medium", tags := "" },
   { id := 6, activity_desc := "s6", source := "", start_date := -100,
     end_date := none, blocking_points := none, status := "Ongoing",
     observations := none, priority := "Medium", tags := "" }]

/-- C3 counterexample: with six stale Ongoing activities the analytics
stale-suggestion list has six entries, so it is not capped at 5 as the
claim states (analytics.py line 150 has no `[:5]`). -/
theorem analytics_stale_not_capped :
    (analyticsStale staleSix [] 0 0).length = 6
    ∧ ¬ (analyticsStale staleSix [] 0 0).length ≤ 5 := by
  constructor <;> decide

/-- C3 amended: in both aggregators an Ongoing activity is flagged stale
exactly when its days-since-last-update (from its single latest Update if
any, else from start_date) is ≥ 14 and long-running exactly when days
since start_date is ≥ 30; the dashboard stale and long-running lists and
the analytics long-running list have at most 5 entries, sorted descending
by the day count, drawn from the flagged activities; the analytics stale
list is sorted descending but NOT truncated: it contains all flagged
stale activities. -/
theorem smart_suggestions_spec (db : List Activity) (ups : List Update)
    (now today : Int) :
    (∀ a, a ∈ staleFlagged db ups now today ↔
        a ∈ db ∧ a.status = "Ongoing" ∧ 14 ≤ daysSinceUpdate ups now today a)
    ∧ (∀ a, a ∈ longFlagged db today ↔
        a ∈ db ∧ a.status = "Ongoing" ∧ 30 ≤ daysRunning today a)
    ∧ (dashboardStale db ups now today).length ≤ 5
    ∧ (dashboardStale db ups now today).Sorted (keyDesc (daysSinceUpdate ups now today))
    ∧ (∀ a ∈ dashboardStale db ups now today, a ∈ staleFlagged db ups now today)
    ∧ (dashboardLongRunning db today).length ≤ 5
    ∧ (dashboardLongRunning db today).Sorted (keyDesc (daysRunning today))
    ∧ (∀ a ∈ dashboardLongRunning db today, a ∈ longFlagged db today)
    ∧ (analyticsLongRunning db today).length ≤ 5
    ∧ (analyticsLongRunning db today).Sorted (keyDesc (daysRunning today))
    ∧ (∀ a ∈ analyticsLongRunning db today, a ∈ longFlagged db today)
    ∧ (analyticsStale db ups now today).Sorted (keyDesc (daysSinceUpdate ups now today))
    ∧ List.Perm (analyticsStale db ups now today) (staleFlagged db ups now today) := by
  refine ⟨?_, ?_, ?_, ?_, ?_, ?_, ?_, ?_, ?_, ?_, ?_, ?_, ?_⟩
  · intro a
    simp only [staleFlagged, ongoingOf, List.mem_filter, and_assoc,
      decide_eq_true_eq, beq_iff_eq]
  · intro a
    simp only [longFlagged, ongoingOf, List.mem_filter, and_assoc,
      decide_eq_true_eq, beq_iff_eq]
  · exact List.length_take_le 5 _
  · exact (sortByKey_sorted_desc _ _).sublist (List.take_sublist 5 _)
  · intro a ha
    exact (sortByKey_perm _ _ _).subset ((List.take_sublist 5 _).subset ha)
  · exact List.length_take_le 5 _
  · exact (sortByKey_sorted_desc _ _).sublist (List.take_sublist 5 _)
  · intro a ha
    exact (sortByKey_perm _ _ _).subset ((List.take_sublist 5 _).subset ha)
  · exact List.length_take_le 5 _
  · exact (sortByKey_sorted_desc _ _).sublist (List.take_sublist 5 _)
  · intro a ha
    exact (sortByKey_perm _ _ _).subset ((List.take_sublist 5 _).subset ha)
  · exact sortByKey_sorted_desc _ _
  · exact sortByKey_perm _ _ _

/-! ### C9 -/

/-- C9: the dashboard list contains exactly the stored activities passing
the WHERE clause (whose first conjunct is status ≠ Closed); under the
default priority sort it is ordered by the fixed rank High=1, Medium=2,
Low=3, unknown=4, ascending unless dir=desc, and the sort is stable: for
every rank value the subsequence of that rank equals the filtered list's
subsequence in original retrieval order. -/
theorem dashboard_list_spec (db : List Activity) (q : DashQuery) :
    (∀ a, a ∈ dashboardActivities db q ↔ a ∈ db ∧ passesDashFilters q a = true)
    ∧ (∀ a ∈ db, passesDashFilters q a = true → a.status ≠ "Closed")
    ∧ (q.dir_desc = false →
        (dashboardActivities db q).Sorted (keyAsc priorityRank))
    ∧ (q.dir_desc = true →
        (dashboardActivities db q).Sorted (keyDesc priorityRank))
    ∧ (∀ k : Int, (dashboardActivities db q).filter (fun a => priorityRank a == k) =
        (db.filter (passesDashFilters q)).filter (fun a => priorityRank a == k))
    ∧ (∀ a : Activity,
        (a.priority = "High" → priorityRank a = 1)
        ∧ (a.priority = "Medium" → priorityRank a = 2)
        ∧ (a.priority = "Low" → priorityRank a = 3)
        ∧ (a.priority ∉ allowedPriorities → priorityRank a = 4)) := by
  refine ⟨?_, ?_, ?_, ?_, ?_, ?_⟩
  · intro a
    rw [dashboardActivities, (sortByKey_perm priorityRank q.dir_desc _).mem_iff]
    simp [List.mem_filter]
  · intro a _ hp hcl
    simp [passesDashFilters, hcl] at hp
  · intro hd
    rw [dashboardActivities, hd]
    exact sortByKey_sorted_asc _ _
  · intro hd
    rw [dashboardActivities, hd]
    exact sortByKey_sorted_desc _ _
  · intro k
    rw [dashboardActivities]
    exact sortByKey_filter_key _ _ _ _
  · intro a
    refine ⟨fun h => by simp [priorityRank, h], fun h => by simp [priorityRank, h],
      fun h => by simp [priorityRank, h], fun h => ?_⟩
    have h1 : a.priority ≠ "High" := fun e => h (by rw [e]; decide)
    have h2 : a.priority ≠ "Medium" := fun e => h (by rw [e]; decide)
    have h3 : a.priority ≠ "Low" := fun e => h (by rw [e]; decide)
    simp [priorityRank, h1, h2, h3]

/-! ### C2 -/

/-- An edit form that closes the activity with a closing note but leaves
the end-date field blank. -/
def c2Form : EditForm :=
  { activity_desc := "Test activity", source := "", start_date := 0,
    end_date := none, blocking_points := "", status := "Closed",
    priority := "Medium", tags := "", new_update := "", closing_note := "done" }

/-- C2 counterexample: an Edit request that transitions Ongoing → Closed
with the non-empty closing note "done" succeeds but leaves `end_date`
unset (`edit_activity` only copies the submitted end-date field, lines
328-331, and never auto-fills today), so the claim's "end_date is set to
today's date" fails on the Edit path. -/
theorem edit_close_no_end_date_set :
    (editActivity exActivity c2Form 0).toOption.map (fun p => p.1.end_date) =
      some none
    ∧ exActivity.status = "Ongoing"
    ∧ exActivity.end_date = none
    ∧ c2Form.status = "Closed"
    ∧ pyStrip c2Form.closing_note = "done" := by
  refine ⟨?_, rfl, rfl, rfl, ?_⟩ <;> decide

/-- C2 amended: on a non-Closed → Closed transition with a non-empty
closing note, the inline status change appends exactly one Update with
text "[CLOSED] " ++ note and auto-fills `end_date` with today when it was
unset; the Edit path appends exactly one such closing Update (after the
plain Update when a new update text was also supplied) but takes
`end_date` verbatim from the form and never auto-fills it. -/
theorem close_transition_spec (a : Activity) (f : EditForm) (s c : String)
    (today now : Int) :
    (pyStrip s = "Closed" → a.status ≠ "Closed" → pyStrip c ≠ "" →
      ∃ a2 u, updateStatus a s c today now = Except.ok (a2, [u])
        ∧ u.text = "[CLOSED] " ++ pyStrip c
        ∧ (∃ rest, u.text = "[CLOSED] " ++ rest)
        ∧ a2.status = "Closed"
        ∧ a2.end_date = (if a.end_date = none then some today else a.end_date))
    ∧ (f.status = "Closed" → a.status ≠ "Closed" → f.priority ∈ allowedPriorities →
      pyStrip f.closing_note ≠ "" →
      ∃ a2 ups u, editActivity a f now = Except.ok (a2, ups)
        ∧ ups = (if pyStrip f.new_update ≠ "" then
            [{ activity_id := a.id, text := pyStrip f.new_update,
               created_at := now, bp_snapshot := none }]
          else ([] : List Update)) ++ [u]
        ∧ u.text = "[CLOSED] " ++ pyStrip f.closing_note
        ∧ a2.status = "Closed"
        ∧ a2.end_date = f.end_date) := by
  constructor
  · intro hs hold hcn
    by_cases he : a.end_date = none
    · refine ⟨{ a with
                status := "Closed"
                end_date := some today
                observations := some ("[CLOSED] " ++ pyStrip c) },
        { activity_id := a.id, text := "[CLOSED] " ++ pyStrip c,
          created_at := now, bp_snapshot := none },
        ?_, rfl, ⟨pyStrip c, rfl⟩, rfl, ?_⟩
      · simp [updateStatus, hs, hold, hcn, he, allowedStatuses]
      · simp [he]
    · refine ⟨{ a with
                status := "Closed"
                observations := some ("[CLOSED] " ++ pyStrip c) },
        { activity_id := a.id, text := "[CLOSED] " ++ pyStrip c,
          created_at := now, bp_snapshot := none },
        ?_, rfl, ⟨pyStrip c, rfl⟩, rfl, ?_⟩
      · simp [updateStatus, hs, hold, hcn, he, allowedStatuses]
      · simp [he]
  · intro hs hold hp hcn
    by_cases hnu : pyStrip f.new_update = ""
    · refine ⟨{ a with
                activity_desc := f.activity_desc
                source := f.source
                start_date := f.start_date
                end_date := f.end_date
                blocking_points := some f.blocking_points
                status := f.status
                priority := f.priority
                tags := f.tags
                observations := some ("[CLOSED] " ++ pyStrip f.closing_note) },
        [{ activity_id := a.id, text := "[CLOSED] " ++ pyStrip f.closing_note,
           created_at := now, bp_snapshot := none }],
        { activity_id := a.id, text := "[CLOSED] " ++ pyStrip f.closing_note,
          created_at := now, bp_snapshot := none },
        ?_, by simp [hnu], rfl, hs, rfl⟩
      simp [editActivity, hs, hold, hp, hnu, hcn, allowedStatuses]
    · refine ⟨{ a with
                activity_desc := f.activity_desc
                source := f.source
                start_date := f.start_date
                end_date := f.end_date
                blocking_points := some f.blocking_points
                status := f.status
                priority := f.priority
                tags := f.tags
                observations := some ("[CLOSED] " ++ pyStrip f.closing_note) },
        [{ activity_id := a.id, text := pyStrip f.new_update,
           created_at := now, bp_snapshot := none },
         { activity_id := a.id, text := "[CLOSED] " ++ pyStrip f.closing_note,
           created_at := now, bp_snapshot := none }],
        { activity_id := a.id, text := "[CLOSED] " ++ pyStrip f.closing_note,
          created_at := now, bp_snapshot := none },
        ?_, by simp [hnu], rfl, hs, rfl⟩
      simp [editActivity, hs, hold, hp, hnu, hcn, allowedStatuses]

/-- Witness for C2's amended statement: both paths at concrete inputs. -/
theorem close_transition_spec_witness :
    (∃ a2 u, updateStatus exActivity " Closed " "done" 7 3 = Except.ok (a2, [u])
      ∧ u.text = "[CLOSED] " ++ pyStrip "done"
      ∧ (∃ rest, u.text = "[CLOSED] " ++ rest)
      ∧ a2.status = "Closed"
      ∧ a2.end_date =
          (if exActivity.end_date = none then some 7 else exActivity.end_date))
    ∧ ∃ a2 ups u, editActivity exActivity c2Form 3 = Except.ok (a2, ups)
      ∧ ups = (if pyStrip c2Form.new_update ≠ "" then
          [{ activity_id := exActivity.id, text := pyStrip c2Form.new_update,
             created_at := 3, bp_snapshot := none }]
        else ([] : List Update)) ++ [u]
      ∧ u.text = "[CLOSED] " ++ pyStrip c2Form.closing_note
      ∧ a2.status = "Closed"
      ∧ a2.end_date = c2Form.end_date :=
  ⟨(close_transition_spec exActivity c2Form " Closed " "done" 7 3).1
      (by decide) (by decide) (by decide),
   (close_transition_spec exActivity c2Form " Closed " "done" 7 3).2
      (by decide) (by decide) (by decide) (by decide)⟩

/-! ### C7 -/

/-- A create form with a non-empty initial note. -/
def c7Form : CreateForm :=
  { activity_desc := "New item", source := "", start_date := 0, end_date := none,
    blocking_points := "bp", status := "Ongoing", observations := "",
    initial_update := "first note", priority := "Medium", tags := "" }

/-- C7 counterexample: `add_activity` with an initial note produces TWO
commits (line 288 commits the Activity, line 299 commits the Update), and
the first committed state contains the new Activity with no Update row at
all — a reachable persisted state (left behind whenever the second commit
fails) in which the Activity exists without its initial Update, refuting
the single-atomic-transaction claim. -/
theorem create_not_atomic :
    (addActivityCommits [] [] c7Form 1 0).length = 2
    ∧ ((addActivityCommits [] [] c7Form 1 0).headD ([], [])).1 =
        [createdActivity c7Form 1]
    ∧ ((addActivityCommits [] [] c7Form 1 0).headD ([], [])).2 = []
    ∧ initialObs c7Form ≠ "" := by
  refine ⟨?_, ?_, ?_, ?_⟩ <;> decide

/-- C7 amended: create with a non-empty initial note persists the Activity
and then its initial Update (whose `bp_snapshot` equals the new activity's
blocking points, coalescing an empty value to "") in two consecutive
commits rather than one transaction: the first committed state holds the
Activity with no Update, so a failure between the commits leaves the
Activity without its initial Update; when both commits succeed the final
state holds both. -/
theorem create_commit_sequence (dbA : List Activity) (dbU : List Update)
    (f : CreateForm) (newId : Nat) (now : Int)
    (hd : ¬ (pyStrip f.activity_desc = "" ∨ (pyStrip f.activity_desc).length < 3))
    (hs : f.status ∈ allowedStatuses) (hp : f.priority ∈ allowedPriorities)
    (hobs : initialObs f ≠ "") :
    addActivityCommits dbA dbU f newId now =
      [(dbA ++ [createdActivity f newId], dbU),
       (dbA ++ [createdActivity f newId],
        dbU ++ [{ activity_id := newId, text := initialObs f, created_at := now,
                  bp_snapshot :=
                    some ((createdActivity f newId).blocking_points.getD "") }])] := by
  rw [addActivityCommits]
  rw [if_neg hd, if_pos ⟨hs, hp⟩, if_pos hobs]

/-- Witness for C7's amended statement at the concrete form. -/
theorem create_commit_sequence_witness :
    addActivityCommits [] [] c7Form 1 0 =
      [([createdActivity c7Form 1], []),
       ([createdActivity c7Form 1],
        [{ activity_id := 1, text := initialObs c7Form, created_at := 0,
           bp_snapshot :=
             some ((createdActivity c7Form 1).blocking_points.getD "") }])] :=
  create_commit_sequence [] [] c7Form 1 0 (by decide) (by decide) (by decide)
    (by decide)

/-! ### C6 -/

/-- C6: after every committed mutating operation (create, edit, inline
status change, bulk priority update) every stored Activity has
status ∈ {Ongoing, Closed, NA} and priority ∈ {High, Medium, Low}; and a
request carrying a value outside these sets is rejected before commit
(create commits nothing; edit, status change and bulk return an error,
persisting nothing). -/
theorem enum_invariants (db : List Activity) (dbU : List Update) (a : Activity)
    (f : EditForm) (g : CreateForm) (s c p : String) (ids : List Nat)
    (today now : Int) (newId : Nat) :
    (validDb db → ∀ st ∈ addActivityCommits db dbU g newId now, validDb st.1)
    ∧ (∀ a2 ups, editActivity a f now = Except.ok (a2, ups) → validActivity a2)
    ∧ (validActivity a → ∀ a2 ups,
        updateStatus a s c today now = Except.ok (a2, ups) → validActivity a2)
    ∧ (validDb db → ∀ db2 n, bulkUpdatePriority db ids p = Except.ok (db2, n) →
        validDb db2)
    ∧ (g.status ∉ allowedStatuses ∨ g.priority ∉ allowedPriorities →
        addActivityCommits db dbU g newId now = [])
    ∧ (f.status ∉ allowedStatuses ∨ f.priority ∉ allowedPriorities →
        ∃ e, editActivity a f now = Except.error e)
    ∧ (pyStrip s ∉ allowedStatuses →
        updateStatus a s c today now = Except.error StatusErr.invalidStatus)
    ∧ (pyStrip p ∉ allowedPriorities →
        ∃ e, bulkUpdatePriority db ids p = Except.error e) := by
  refine ⟨?_, ?_, ?_, ?_, ?_, ?_, ?_, ?_⟩
  · intro hdb st hst
    rw [addActivityCommits] at hst
    by_cases h1 : pyStrip g.activity_desc = "" ∨ (pyStrip g.activity_desc).length < 3
    · rw [if_pos h1] at hst
      simp at hst
    · rw [if_neg h1] at hst
      by_cases h2 : g.status ∈ allowedStatuses ∧ g.priority ∈ allowedPriorities
      · rw [if_pos h2] at hst
        have hvalid : validDb (db ++ [createdActivity g newId]) := by
          intro x hx
          rcases List.mem_append.1 hx with hx | hx
          · exact hdb x hx
          · rcases List.mem_singleton.1 hx with rfl
            exact ⟨h2.1, h2.2⟩
        by_cases h3 : initialObs g ≠ ""
        · rw [if_pos h3] at hst
          simp only [List.mem_cons, List.not_mem_nil, or_false] at hst
          rcases hst with rfl | rfl
          · exact hvalid
          · exact hvalid
        · rw [if_neg h3] at hst
          simp only [List.mem_singleton] at hst
          subst hst
          exact hvalid
      · rw [if_neg h2] at hst
        simp at hst
  · intro a2 ups h
    simp only [editActivity] at h
    by_cases hs1 : f.status ∈ allowedStatuses
    · rw [if_pos hs1] at h
      by_cases hp1 : f.priority ∈ allowedPriorities
      · rw [if_pos hp1] at h
        split_ifs at h <;>
          first
            | exact Except.noConfusion h
            | (injection h with hpair
               injection hpair with hA hU
               subst hA
               exact ⟨hs1, hp1⟩)
      · rw [if_neg hp1] at h
        exact Except.noConfusion h
    · rw [if_neg hs1] at h
      exact Except.noConfusion h
  · intro ha a2 ups h
    simp only [updateStatus] at h
    by_cases hs1 : pyStrip s ∈ allowedStatuses
    · rw [if_pos hs1] at h
      split_ifs at h <;>
        first
          | exact Except.noConfusion h
          | (injection h with hpair
             injection hpair with hA hU
             subst hA
             exact ⟨hs1, ha.2⟩)
    · rw [if_neg hs1] at h
      exact Except.noConfusion h
  · intro hdb db2 n h
    simp only [bulkUpdatePriority] at h
    by_cases h1 : ids.isEmpty
    · rw [if_pos h1] at h
      exact Except.noConfusion h
    · rw [if_neg h1] at h
      by_cases h2 : pyStrip p ∈ allowedPriorities
      · rw [if_pos h2] at h
        injection h with hpair
        injection hpair with hA hN
        subst hA
        intro x hx
        rcases List.mem_map.1 hx with ⟨y, hy, rfl⟩
        by_cases hm : ids.contains y.id = true
        · rw [if_pos hm]
          exact ⟨(hdb y hy).1, h2⟩
        · rw [if_neg hm]
          exact hdb y hy
      · rw [if_neg h2] at h
        exact Except.noConfusion h
  · intro hbad
    rw [addActivityCommits]
    by_cases h1 : pyStrip g.activity_desc = "" ∨ (pyStrip g.activity_desc).length < 3
    · rw [if_pos h1]
    · rw [if_neg h1]
      have h2 : ¬ (g.status ∈ allowedStatuses ∧ g.priority ∈ allowedPriorities) := by
        rcases hbad with hbad | hbad
        · exact fun hc => hbad hc.1
        · exact fun hc => hbad hc.2
      rw [if_neg h2]
  · intro hbad
    by_cases hs1 : f.status ∈ allowedStatuses
    · refine ⟨EditErr.invalidPriority, ?_⟩
      have hp1 : f.priority ∉ allowedPriorities := by
        rcases hbad with hbad | hbad
        · exact absurd hs1 hbad
        · exact hbad
      simp [editActivity, hs1, hp1]
    · exact ⟨EditErr.invalidStatus, by simp [editActivity, hs1]⟩
  · intro hbad
    simp [updateStatus, hbad]
  · intro hbad
    by_cases hids : ids.isEmpty
    · exact ⟨BulkErr.emptyIds, by simp [bulkUpdatePriority, hids]⟩
    · exact ⟨BulkErr.invalidPriority, by simp [bulkUpdatePriority, hids, hbad]⟩

/-- Witness for C6: two of the cases at concrete inputs. -/
theorem enum_invariants_witness :
    (validActivity exActivity → ∀ a2 ups,
        updateStatus exActivity "Archived" "" 0 0 = Except.ok (a2, ups) →
          validActivity a2)
    ∧ (pyStrip "Archived" ∉ allowedStatuses →
        updateStatus exActivity "Archived" "" 0 0 =
          Except.error StatusErr.invalidStatus) :=
  ⟨(enum_invariants [] [] exActivity c1Form c7Form "Archived" "" "High" [] 0 0
      1).2.2.1,
   fun h =>
     (enum_invariants [] [] exActivity c1Form c7Form "Archived" "" "High" [] 0 0
        1).2.2.2.2.2.2.1 h⟩
